import Mathlib

/-!
Verification of the PLC integration layer of MaintAIPredict
(src/plc_integration.py): Siemens S7 and Schneider/Modicon (Modbus TCP)
clients, the sensor mapper and the connection registry.

Shallow embedding conventions:
* a byte string is a List Nat (each element a byte value 0..255 as
  produced by socket recv);
* the socket exchange of one operation (send + recv) is modelled by a
  NetResult oracle: either the peer answered with a byte string, or a
  socket error / timeout was raised;
* Python dictionaries keyed by strings are modelled as functions
  String -> Option _ (a dict holds at most one value per key);
* struct.unpack / bytearray range failures are modelled as Except errors
  or Option.none exactly where the Python code would raise, and the
  surrounding try/except blocks are modelled by catching those values;
* wall-clock timestamps are passed in as explicit parameters.
-/

/-- Result of one socket exchange: the raw response bytes, or a socket
error / timeout (which in Python raises inside the try block). -/
inductive NetResult where
  | ok (response : List Nat)
  | err
deriving DecidableEq, Repr

/-- Big-endian 16-bit encoding, as produced by struct.pack with format >H
for an in-range value. -/
def pack16 (n : Nat) : List Nat :=
  [n / 256 % 256, n % 256]

/-- Big-endian accumulation of a byte list into a natural number
(the bit pattern of the wire data). -/
def beWord (bs : List Nat) : Nat :=
  bs.foldl (fun a b => a * 256 + b) 0

/-- Interpretation of two big-endian bytes as a signed 16-bit integer,
as struct.unpack with format >h does. -/
def decodeInt16 (bs : List Nat) : Int :=
  let u := beWord bs
  if u ≥ 32768 then (u : Int) - 65536 else (u : Int)

/-! ## Siemens S7 client (class SiemensS7Client) -/

/-- Connection-relevant state of a SiemensS7Client object:
self.connected, and whether self.socket is an open socket. -/
structure S7State where
  connected : Bool
  socketOpen : Bool
deriving DecidableEq, Repr

/-- SiemensS7Client._parse_read_response: a response shorter than 25
bytes yields None; otherwise the status byte at offset 21 must be 0xFF,
the payload length is the big-endian word at offsets 23-24, and the
payload is returned only when the response actually holds that many
bytes from offset 25 on. -/
def s7ParseReadResponse (response : List Nat) : Option (List Nat) :=
  if response.length < 25 then none
  else if response.getD 21 0 = 0xFF then
    let dataLength := (response.getD 23 0) <<< 8 ||| (response.getD 24 0)
    if response.length ≥ 25 + dataLength then
      some ((response.drop 25).take dataLength)
    else none
  else none

/-- SiemensS7Client._parse_write_response: at least 22 bytes and status
byte 0xFF at offset 21. -/
def s7ParseWriteResponse (response : List Nat) : Bool :=
  if response.length < 22 then false
  else if response.getD 21 0 = 0xFF then true else false

/-- SiemensS7Client.read_db: returns None when not connected; otherwise
sends the read request and parses the response; any socket exception is
caught and yields None with the object state unchanged. -/
def s7ReadDb (st : S7State) (dbNumber start size : Nat) (net : NetResult) :
    S7State × Option (List Nat) :=
  if st.connected = false then (st, none)
  else
    match net with
    | .err => (st, none)
    | .ok response => (st, s7ParseReadResponse response)

/-- SiemensS7Client.write_db: returns False when not connected;
otherwise sends the write request and parses the response; any socket
exception is caught and yields False with the object state unchanged. -/
def s7WriteDb (st : S7State) (dbNumber start : Nat) (data : List Nat) (net : NetResult) :
    S7State × Bool :=
  if st.connected = false then (st, false)
  else
    match net with
    | .err => (st, false)
    | .ok response => (st, s7ParseWriteResponse response)

/-! ## Schneider Modicon client (class SchneiderModiconClient) -/

/-- State of a SchneiderModiconClient object: self.connected, the
socket, the transaction counter and the fixed unit id. -/
structure ModbusState where
  connected : Bool
  socketOpen : Bool
  transactionId : Nat
  unitId : Nat
deriving DecidableEq, Repr

/-- SchneiderModiconClient._build_modbus_request: struct.pack with
format >HHHBBHH; struct raises (modelled as none) when a field is out
of range for its format. -/
def buildModbusRequest (tid unitId funcCode address data : Nat) :
    Option (List Nat) :=
  if tid < 65536 ∧ unitId < 256 ∧ funcCode < 256 ∧ address < 65536 ∧ data < 65536 then
    some (pack16 tid ++ pack16 0 ++ pack16 6 ++ [unitId, funcCode] ++
      pack16 address ++ pack16 data)
  else none

/-- SchneiderModiconClient._build_modbus_write_multiple_request:
struct.pack with format >HHHBBHHB followed by the packed values; the
byte count 2*len(values) is packed with format B, so it must be below
256. -/
def buildModbusWriteMultipleRequest (tid unitId address : Nat) (values : List Nat) :
    Option (List Nat) :=
  if tid < 65536 ∧ unitId < 256 ∧ address < 65536 ∧ values.length * 2 < 256 ∧
      (∀ v ∈ values, v < 65536) then
    some (pack16 tid ++ pack16 0 ++ pack16 (7 + values.length * 2) ++
      [unitId, 0x10] ++ pack16 address ++ pack16 values.length ++
      [values.length * 2] ++ values.flatMap pack16)
  else none

/-- One loop step of _parse_read_registers_response: struct.unpack with
format >H on the slice response[start : start+2], which raises
(Except.error) when fewer than two bytes are available. -/
def unpackWords (response : List Nat) (start : Nat) : Nat → Except Unit (List Nat)
  | 0 => .ok []
  | n + 1 =>
    match (response.drop start).take 2 with
    | [b0, b1] =>
      match unpackWords response (start + 2) n with
      | .ok ws => .ok ((b0 * 256 + b1) :: ws)
      | .error e => .error e
    | _ => .error ()

/-- SchneiderModiconClient._parse_read_registers_response: fewer than 9
bytes yields None; a function code with the 0x80 bit set yields None;
otherwise byte_count / 2 big-endian words are unpacked starting at
offset 9, struct raising (Except.error) when the response is shorter
than the declared byte count. -/
def parseReadRegistersResponse (response : List Nat) :
    Except Unit (Option (List Nat)) :=
  if response.length < 9 then .ok none
  else
    let funcCode := response.getD 7 0
    let byteCount := response.getD 8 0
    if funcCode &&& 0x80 ≠ 0 then .ok none
    else
      match unpackWords response 9 (byteCount / 2) with
      | .ok ws => .ok (some ws)
      | .error e => .error e

/-- SchneiderModiconClient._parse_write_response: at least 8 bytes and
the 0x80 bit clear in the echoed function code. -/
def parseModbusWriteResponse (response : List Nat) : Bool :=
  if response.length < 8 then false
  else if (response.getD 7 0) &&& 0x80 = 0 then true else false

/-- SchneiderModiconClient.read_holding_registers: when connected, the
transaction id is incremented, the function-03 request is built and
sent, and the response is parsed; struct errors and socket errors are
caught and yield None. Returns (new object state, request put on the
wire if any, parsed register values if any). -/
def readHoldingRegisters (st : ModbusState) (address count : Nat) (net : NetResult) :
    ModbusState × Option (List Nat) × Option (List Nat) :=
  if st.connected = false then (st, none, none)
  else
    let st1 := { st with transactionId := st.transactionId + 1 }
    match buildModbusRequest st1.transactionId st.unitId 0x03 address count with
    | none => (st1, none, none)
    | some req =>
      match net with
      | .err => (st1, some req, none)
      | .ok response =>
        match parseReadRegistersResponse response with
        | .error _ => (st1, some req, none)
        | .ok vs => (st1, some req, vs)

/-- SchneiderModiconClient.write_single_register: same envelope with
function code 0x06; success is the parsed write response. -/
def writeSingleRegister (st : ModbusState) (address value : Nat) (net : NetResult) :
    ModbusState × Option (List Nat) × Bool :=
  if st.connected = false then (st, none, false)
  else
    let st1 := { st with transactionId := st.transactionId + 1 }
    match buildModbusRequest st1.transactionId st.unitId 0x06 address value with
    | none => (st1, none, false)
    | some req =>
      match net with
      | .err => (st1, some req, false)
      | .ok response => (st1, some req, parseModbusWriteResponse response)

/-- SchneiderModiconClient.write_multiple_registers: function code 0x10
with the packed value list. -/
def writeMultipleRegisters (st : ModbusState) (address : Nat) (values : List Nat)
    (net : NetResult) : ModbusState × Option (List Nat) × Bool :=
  if st.connected = false then (st, none, false)
  else
    let st1 := { st with transactionId := st.transactionId + 1 }
    match buildModbusWriteMultipleRequest st1.transactionId st.unitId address values with
    | none => (st1, none, false)
    | some req =>
      match net with
      | .err => (st1, some req, false)
      | .ok response => (st1, some req, parseModbusWriteResponse response)

/-- Transaction id carried in the first two bytes of a Modbus TCP
request. -/
def reqTid (req : List Nat) : Nat :=
  req.getD 0 0 * 256 + req.getD 1 0

/-- One client operation of the Modbus client, for reasoning about
operation sequences. -/
inductive MOp where
  | readH (address count : Nat)
  | writeS (address value : Nat)
  | writeM (address : Nat) (values : List Nat)
deriving DecidableEq, Repr

/-- Dispatch of one Modbus operation, keeping the new object state and
the request put on the wire. -/
def mstep (st : ModbusState) (op : MOp) (net : NetResult) :
    ModbusState × Option (List Nat) :=
  match op with
  | .readH a c => ((readHoldingRegisters st a c net).1, (readHoldingRegisters st a c net).2.1)
  | .writeS a v => ((writeSingleRegister st a v net).1, (writeSingleRegister st a v net).2.1)
  | .writeM a vs => ((writeMultipleRegisters st a vs net).1, (writeMultipleRegisters st a vs net).2.1)

/-- A sequence of Modbus operations on one connection, collecting every
request put on the wire in order. -/
def modbusRun (st : ModbusState) : List (MOp × NetResult) → ModbusState × List (List Nat)
  | [] => (st, [])
  | (op, net) :: rest =>
    let p := mstep st op net
    let q := modbusRun p.1 rest
    (q.1, p.2.toList ++ q.2)

/-! ## Connection registry (class PLCIntegrationService: connect) -/

/-- The PLC-relevant columns of a Factory record; plc_type and plc_ip
are nullable strings, plc_port a nullable integer. -/
structure Factory where
  plc_type : Option String
  plc_ip : Option String
  plc_port : Option Nat
deriving DecidableEq, Repr

/-- Python truthiness of an optional string: None and the empty string
are falsy. -/
def truthyStr : Option String → Bool
  | none => false
  | some s => !(s == "")

/-- Python str.startswith: character-level prefix test. -/
def strStartsWith (s p : String) : Bool :=
  p.data.isPrefixOf s.data

/-- One entry of self.active_connections: the vendor tag, the identity
of the client object and the connection timestamp. -/
structure ActiveConn where
  kind : String
  clientId : Nat
  connected_at : Nat
deriving DecidableEq, Repr

/-- The three registries of a PLCIntegrationService object, each a dict
keyed by factory_id; client objects are represented by their identity. -/
structure ServiceState where
  siemens_clients : String → Option Nat
  schneider_clients : String → Option Nat
  active_connections : String → Option ActiveConn

/-- Dict assignment d[k] = v. -/
def upd {α : Type} (m : String → Option α) (k : String) (v : α) :
    String → Option α :=
  fun x => if x = k then some v else m x

/-- PLCIntegrationService.connect_to_factory_plcs. The database lookup
Factory.query.get(factory_id) is passed in as an optional record, the
identity of the freshly constructed client object as newClientId, the
outcome of client.connect() as connectOk, and datetime.utcnow() as now.
The function registers the client and the ActiveConnection only in the
branch where connect() returned True, and returns the results dict as
an association list. -/
def connectToFactoryPlcs (st : ServiceState) (factoryId : String)
    (factory : Option Factory) (newClientId : Nat) (connectOk : Bool) (now : Nat) :
    ServiceState × List (String × Bool) :=
  match factory with
  | none => (st, [])
  | some f =>
    if truthyStr f.plc_type && truthyStr f.plc_ip then
      let t := f.plc_type.getD ""
      if strStartsWith t "siemens" then
        if connectOk then
          ({ st with
              siemens_clients := upd st.siemens_clients factoryId newClientId,
              active_connections := upd st.active_connections factoryId
                ⟨"siemens", newClientId, now⟩ },
            [(factoryId, true)])
        else (st, [(factoryId, false)])
      else if strStartsWith t "schneider" then
        if connectOk then
          ({ st with
              schneider_clients := upd st.schneider_clients factoryId newClientId,
              active_connections := upd st.active_connections factoryId
                ⟨"schneider", newClientId, now⟩ },
            [(factoryId, true)])
        else (st, [(factoryId, false)])
      else (st, [])
    else (st, [])

/-! ## Sensor mapper (read_sensor_data_from_plc and helpers) -/

/-- One entry of the sensor_config dict. Absent keys are None; the code
reads db_number and address only after an explicit membership test and
takes data_type, scale_factor and unit with defaults. The scale factor
is modelled as an exact rational. -/
structure SensorCfg where
  db_number : Option Nat
  address : Option Nat
  data_type : Option String
  scale_factor : Option Rat
  unit : Option String
deriving DecidableEq, Repr

/-- A decoded sensor value. IEEE-754 payloads are kept as their 32-bit
big-endian bit pattern: struct.unpack with format >f is injective on
4-byte inputs up to that pattern, and no claim depends on the real
number it denotes. -/
inductive SensorValue where
  | real32 (bits : Nat)
  | int16 (v : Int)
  | scaled (v : Rat)
deriving DecidableEq, Repr

/-- One iteration of the loop in _read_siemens_sensor_data for a single
sensor entry: membership tests on db_number and address, dispatch on
data_type (default real), the read via read_db, the Python truthiness
test on raw_data, and the struct.unpack call, which raises
(Except.error) when the payload length is not the format size. An
unrecognized data_type falls through and the sensor is skipped. -/
def siemensReadSensor (st : S7State) (c : SensorCfg) (net : NetResult) :
    Except Unit (Option (SensorValue × String)) :=
  match c.db_number, c.address with
  | some dbn, some addr =>
    let dt := c.data_type.getD "real"
    if dt = "real" then
      match (s7ReadDb st dbn addr 4 net).2 with
      | some raw =>
        if raw.length = 0 then .ok none
        else if raw.length = 4 then .ok (some (.real32 (beWord raw), c.unit.getD ""))
        else .error ()
      | none => .ok none
    else if dt = "int" then
      match (s7ReadDb st dbn addr 2 net).2 with
      | some raw =>
        if raw.length = 0 then .ok none
        else if raw.length = 2 then .ok (some (.int16 (decodeInt16 raw), c.unit.getD ""))
        else .error ()
      | none => .ok none
    else .ok none
  | _, _ => .ok none

/-- The loop of _read_siemens_sensor_data over the sensor_config dict
(as an association list, preserving dict iteration order), building the
sensor_data dict; the first struct error aborts the whole loop. The
per-sensor socket exchange is net applied to the sensor_type. -/
def readSiemensSensorData (st : S7State) (cfg : List (String × SensorCfg))
    (net : String → NetResult) :
    Except Unit (List (String × SensorValue × String)) :=
  match cfg with
  | [] => .ok []
  | (name, c) :: rest =>
    match siemensReadSensor st c (net name) with
    | .error e => .error e
    | .ok none => readSiemensSensorData st rest net
    | .ok (some v) =>
      match readSiemensSensorData st rest net with
      | .error e => .error e
      | .ok tl => .ok ((name, v) :: tl)

/-- One iteration of the loop in _read_schneider_sensor_data: requires
the address key, dispatches on data_type (default holding_register),
reads one or two holding registers and applies the scale factor or
combines the two words into a 32-bit pattern. No branch can raise. -/
def schneiderReadSensor (st : ModbusState) (c : SensorCfg) (net : NetResult) :
    Option (SensorValue × String) :=
  match c.address with
  | some addr =>
    let dt := c.data_type.getD "holding_register"
    let sf := c.scale_factor.getD 1
    if dt = "holding_register" then
      match (readHoldingRegisters st addr 1 net).2.2 with
      | some (v :: _) => some (.scaled ((v : Rat) * sf), c.unit.getD "")
      | some [] => none
      | none => none
    else if dt = "holding_register_float" then
      match (readHoldingRegisters st addr 2 net).2.2 with
      | some vs =>
        if vs.length = 2 then
          some (.real32 ((vs.getD 0 0) <<< 16 ||| vs.getD 1 0), c.unit.getD "")
        else none
      | none => none
    else none
  | none => none

/-- The loop of _read_schneider_sensor_data over the sensor_config
dict. -/
def readSchneiderSensorData (st : ModbusState) (cfg : List (String × SensorCfg))
    (net : String → NetResult) : List (String × SensorValue × String) :=
  match cfg with
  | [] => []
  | (name, c) :: rest =>
    match schneiderReadSensor st c (net name) with
    | none => readSchneiderSensorData st rest net
    | some v => (name, v) :: readSchneiderSensorData st rest net

/-- The connection entry read_sensor_data_from_plc finds in
self.active_connections for the factory, with the vendor client object
state. -/
inductive VendorConn where
  | siemens (st : S7State)
  | schneider (st : ModbusState)
deriving DecidableEq, Repr

/-- PLCIntegrationService.read_sensor_data_from_plc: None when the
factory has no active connection; dispatch on the vendor tag; the
vendor helper returns its dict when non-empty and None when empty, and
any exception escaping the helper (a struct error on a wrong-size
payload) is caught at this level and becomes None, discarding the
partial batch. -/
def readSensorDataFromPlc (conn : Option VendorConn)
    (cfg : List (String × SensorCfg)) (net : String → NetResult) :
    Option (List (String × SensorValue × String)) :=
  match conn with
  | none => none
  | some (.siemens st) =>
    match readSiemensSensorData st cfg net with
    | .error _ => none
    | .ok l => if l.isEmpty then none else some l
  | some (.schneider st) =>
    let l := readSchneiderSensorData st cfg net
    if l.isEmpty then none else some l

/-! ## Alert writes (_write_siemens_alert, _write_schneider_alert) -/

/-- The alert_data dict as far as the alert writers read it: only the
severity key. -/
structure AlertData where
  severity : Option String
deriving DecidableEq, Repr

/-- The severity_map dict literal of both alert writers. -/
def severityMap (s : String) : Option Nat :=
  if s = "low" then some 1
  else if s = "medium" then some 2
  else if s = "high" then some 3
  else if s = "critical" then some 4
  else none

/-- severity_map.get(alert_data.get(severity, low), 1). -/
def severityValue (a : AlertData) : Nat :=
  (severityMap (a.severity.getD "low")).getD 1

/-- PLCIntegrationService._write_siemens_alert: packs alert-active 1 and
the severity value as two big-endian 16-bit words and writes them to
data block 100 at offset 0. -/
def writeSiemensAlert (st : S7State) (a : AlertData) (net : NetResult) :
    S7State × Bool :=
  s7WriteDb st 100 0 (pack16 1 ++ pack16 (severityValue a)) net

/-- PLCIntegrationService._write_schneider_alert: writes 1 to holding
register 1000, and on success the severity value to holding register
1001; also returns the Modbus requests put on the wire. -/
def writeSchneiderAlert (st : ModbusState) (a : AlertData) (net1 net2 : NetResult) :
    ModbusState × Bool × List (List Nat) :=
  let r1 := writeSingleRegister st 1000 1 net1
  if r1.2.2 = false then (r1.1, false, r1.2.1.toList)
  else
    let r2 := writeSingleRegister r1.1 1001 (severityValue a) net2
    (r2.1, r2.2.2, r1.2.1.toList ++ r2.2.1.toList)

/-! ## Claim theorems -/

/-- Payload length declared at offsets 23-24 of an S7 read response. -/
def s7DeclaredLen (response : List Nat) : Nat :=
  (response.getD 23 0) <<< 8 ||| (response.getD 24 0)

/-- Claim C3 (amended): an S7 read response is accepted only when it is
at least 25 bytes long, the status byte at offset 21 is 0xFF, and it
holds as many payload bytes from offset 25 on as the length declared at
offsets 23-24; the accepted payload is exactly the declared number of
bytes (not the requested length); every other response yields None, and
a socket error yields None, never an exception. -/
theorem c3_s7_read_accepts_declared_length (resp : List Nat) (st : S7State)
    (dbn a sz : Nat) (hc : st.connected = true) :
    ((s7ReadDb st dbn a sz (.ok resp)).2 = s7ParseReadResponse resp) ∧
    ((s7ReadDb st dbn a sz .err).2 = none) ∧
    (resp.length < 25 → s7ParseReadResponse resp = none) ∧
    (resp.getD 21 0 ≠ 0xFF → s7ParseReadResponse resp = none) ∧
    (resp.length < 25 + s7DeclaredLen resp → s7ParseReadResponse resp = none) ∧
    (25 ≤ resp.length → resp.getD 21 0 = 0xFF →
      25 + s7DeclaredLen resp ≤ resp.length →
      s7ParseReadResponse resp = some ((resp.drop 25).take (s7DeclaredLen resp)) ∧
      ((resp.drop 25).take (s7DeclaredLen resp)).length = s7DeclaredLen resp) := by
  refine ⟨by simp [s7ReadDb, hc], by simp [s7ReadDb, hc], ?_, ?_, ?_, ?_⟩
  · intro h; simp [s7ParseReadResponse, h]
  · intro h
    simp only [s7ParseReadResponse]
    split_ifs <;> simp_all
  · intro h
    simp only [s7DeclaredLen] at h
    simp only [s7ParseReadResponse]
    split_ifs <;> first | rfl | omega
  · intro h1 h2 h3
    simp only [s7DeclaredLen] at h3 ⊢
    simp only [s7ParseReadResponse]
    rw [if_neg (by omega), if_pos h2, if_pos (by omega)]
    refine ⟨rfl, ?_⟩
    rw [List.length_take, List.length_drop]
    omega

/-- Claim C3, counterexample to the claim as stated: a 27-byte response
with status 0xFF that declares 2 payload bytes is accepted by a read
requesting size 4, and the client returns the 2 declared bytes, not 4
bytes: the parser never compares the declared length with the requested
one. -/
theorem c3_counterexample_declared_length_wins :
    (s7ReadDb ⟨true, true⟩ 1 0 4
        (.ok (List.replicate 21 0 ++ [255, 0, 0, 2] ++ [1, 2]))).2 = some [1, 2] ∧
    ¬ (([1, 2] : List Nat).length = 4) := by
  constructor
  · decide
  · decide

/-- Witness for c3_s7_read_accepts_declared_length at a concrete
accepted response. -/
theorem c3_s7_read_accepts_declared_length_witness :
    (S7State.mk true true).connected = true ∧
    ((s7ReadDb ⟨true, true⟩ 1 0 4
        (.ok (List.replicate 21 0 ++ [255, 0, 0, 4] ++ [65, 200, 0, 0]))).2 =
      s7ParseReadResponse (List.replicate 21 0 ++ [255, 0, 0, 4] ++ [65, 200, 0, 0])) ∧
    s7ParseReadResponse (List.replicate 21 0 ++ [255, 0, 0, 4] ++ [65, 200, 0, 0]) =
      some [65, 200, 0, 0] := by
  refine ⟨rfl, ?_, by decide⟩
  exact (c3_s7_read_accepts_declared_length
    (List.replicate 21 0 ++ [255, 0, 0, 4] ++ [65, 200, 0, 0]) ⟨true, true⟩ 1 0 4 rfl).1

/-- Claim C4 (amended): a transport operation that fails with a socket
error or timeout reports failure (None or False) but leaves the client
in its previous connection state: connected stays as it was and the
socket is not closed; no operation tears the connection down. -/
theorem c4_failed_op_keeps_connection (stS : S7State) (stM : ModbusState)
    (dbn s0 sz : Nat) (data : List Nat) (a c v : Nat) (vs : List Nat) :
    ((s7ReadDb stS dbn s0 sz .err).1 = stS ∧
     (s7ReadDb stS dbn s0 sz .err).2 = none) ∧
    ((s7WriteDb stS dbn s0 data .err).1 = stS ∧
     (s7WriteDb stS dbn s0 data .err).2 = false) ∧
    ((readHoldingRegisters stM a c .err).1.connected = stM.connected ∧
     (readHoldingRegisters stM a c .err).1.socketOpen = stM.socketOpen ∧
     (readHoldingRegisters stM a c .err).2.2 = none) ∧
    ((writeSingleRegister stM a v .err).1.connected = stM.connected ∧
     (writeSingleRegister stM a v .err).1.socketOpen = stM.socketOpen ∧
     (writeSingleRegister stM a v .err).2.2 = false) ∧
    ((writeMultipleRegisters stM a vs .err).1.connected = stM.connected ∧
     (writeMultipleRegisters stM a vs .err).1.socketOpen = stM.socketOpen ∧
     (writeMultipleRegisters stM a vs .err).2.2 = false) := by
  refine ⟨⟨?_, ?_⟩, ⟨?_, ?_⟩, ⟨?_, ?_, ?_⟩, ⟨?_, ?_, ?_⟩, ⟨?_, ?_, ?_⟩⟩ <;>
    simp only [s7ReadDb, s7WriteDb, readHoldingRegisters, writeSingleRegister,
      writeMultipleRegisters] <;>
    split <;> first | rfl | (split <;> rfl)

/-- Claim C4, counterexample to the claim as stated: after a socket
error or timeout in read_db or read_holding_registers on a connected
client, the client is still marked connected and its socket is still
open — the connection is not torn down. -/
theorem c4_counterexample_no_teardown :
    (s7ReadDb ⟨true, true⟩ 1 0 4 .err).1.connected = true ∧
    (s7ReadDb ⟨true, true⟩ 1 0 4 .err).1.socketOpen = true ∧
    (s7WriteDb ⟨true, true⟩ 100 0 [0, 1, 0, 2] .err).1.connected = true ∧
    (readHoldingRegisters ⟨true, true, 0, 1⟩ 0 1 .err).1.connected = true ∧
    (readHoldingRegisters ⟨true, true, 0, 1⟩ 0 1 .err).1.socketOpen = true ∧
    (writeSingleRegister ⟨true, true, 0, 1⟩ 1000 1 .err).1.connected = true := by
  decide

/-- Claim C5: a connect attempt whose transport connect fails leaves
all three registries exactly as they were — no client and no
ActiveConnection is registered — and the results dict reports false for
the factory. -/
theorem c5_failed_connect_registers_nothing (st : ServiceState) (fid : String)
    (f : Factory) (newId now : Nat)
    (htype : truthyStr f.plc_type = true) (hip : truthyStr f.plc_ip = true)
    (hvendor : strStartsWith (f.plc_type.getD "") "siemens" = true ∨
      (strStartsWith (f.plc_type.getD "") "siemens" = false ∧
       strStartsWith (f.plc_type.getD "") "schneider" = true)) :
    (connectToFactoryPlcs st fid (some f) newId false now).1 = st ∧
    (connectToFactoryPlcs st fid (some f) newId false now).2 = [(fid, false)] := by
  rcases hvendor with h | ⟨h1, h2⟩
  · simp [connectToFactoryPlcs, htype, hip, h]
  · simp [connectToFactoryPlcs, htype, hip, h1, h2]

/-- Witness for c5_failed_connect_registers_nothing at a concrete
Siemens factory and the empty registry. -/
theorem c5_failed_connect_registers_nothing_witness :
    truthyStr (some "siemens_s7_1200") = true ∧
    truthyStr (some "10.0.0.1") = true ∧
    strStartsWith "siemens_s7_1200" "siemens" = true ∧
    ((connectToFactoryPlcs ⟨fun _ => none, fun _ => none, fun _ => none⟩ "f1"
        (some ⟨some "siemens_s7_1200", some "10.0.0.1", none⟩) 7 false 3).1 =
      (⟨fun _ => none, fun _ => none, fun _ => none⟩ : ServiceState) ∧
     (connectToFactoryPlcs ⟨fun _ => none, fun _ => none, fun _ => none⟩ "f1"
        (some ⟨some "siemens_s7_1200", some "10.0.0.1", none⟩) 7 false 3).2 =
      [("f1", false)]) := by
  refine ⟨by decide, by decide, by decide, ?_⟩
  exact c5_failed_connect_registers_nothing ⟨fun _ => none, fun _ => none, fun _ => none⟩
    "f1" ⟨some "siemens_s7_1200", some "10.0.0.1", none⟩ 7 3 (by decide) (by decide)
    (Or.inl (by decide))

/-- Claim C1 (amended): connect_to_factory_plcs has no already-connected
check; for a factory_id that already has an ActiveConnection it
constructs a new vendor client and re-attempts the connection. On
success exactly one ActiveConnection per factory_id remains (the
registries are dicts) but it is the freshly built connection, replacing
the old one, and the result is true; on failure the registries are left
unchanged (the old connection stays) and the result is false. -/
theorem c1_reconnect_replaces_connection (st : ServiceState) (fid : String)
    (f : Factory) (oldC : ActiveConn) (newId : Nat) (ok : Bool) (now : Nat)
    (hconn : st.active_connections fid = some oldC)
    (htype : truthyStr f.plc_type = true) (hip : truthyStr f.plc_ip = true)
    (hvendor : strStartsWith (f.plc_type.getD "") "siemens" = true ∨
      (strStartsWith (f.plc_type.getD "") "siemens" = false ∧
       strStartsWith (f.plc_type.getD "") "schneider" = true)) :
    (ok = true →
      (connectToFactoryPlcs st fid (some f) newId ok now).1.active_connections fid =
        some ⟨(if strStartsWith (f.plc_type.getD "") "siemens" then "siemens"
          else "schneider"), newId, now⟩ ∧
      (connectToFactoryPlcs st fid (some f) newId ok now).2 = [(fid, true)] ∧
      (newId ≠ oldC.clientId →
        (connectToFactoryPlcs st fid (some f) newId ok now).1.active_connections fid ≠
          some oldC)) ∧
    (ok = false →
      (connectToFactoryPlcs st fid (some f) newId ok now).1 = st ∧
      (connectToFactoryPlcs st fid (some f) newId ok now).2 = [(fid, false)]) := by
  constructor
  · rintro rfl
    have hmain : (connectToFactoryPlcs st fid (some f) newId true now).1.active_connections
        fid = some ⟨(if strStartsWith (f.plc_type.getD "") "siemens" then "siemens"
          else "schneider"), newId, now⟩ := by
      rcases hvendor with h | ⟨h1, h2⟩
      · simp [connectToFactoryPlcs, htype, hip, h, upd]
      · simp [connectToFactoryPlcs, htype, hip, h1, h2, upd]
    refine ⟨hmain, ?_, ?_⟩
    · rcases hvendor with h | ⟨h1, h2⟩
      · simp [connectToFactoryPlcs, htype, hip, h]
      · simp [connectToFactoryPlcs, htype, hip, h1, h2]
    · intro hne
      rw [hmain]
      intro heq
      have := congrArg (Option.map ActiveConn.clientId) heq
      simp at this
      exact hne this
  · rintro rfl
    rcases hvendor with h | ⟨h1, h2⟩
    · simp [connectToFactoryPlcs, htype, hip, h]
    · simp [connectToFactoryPlcs, htype, hip, h1, h2]

/-- Claim C1, counterexample to the claim as stated: factory f1 already
holds ActiveConnection (siemens, client 5, connected at 0); calling
connect again with a succeeding transport replaces it with the new
client 10 connected at 7, so the resulting ActiveConnection is not the
same connection as before — the call is not a no-op. -/
theorem c1_counterexample_reconnect_not_noop :
    ((⟨fun x => if x = "f1" then some 5 else none, fun _ => none,
       fun x => if x = "f1" then some ⟨"siemens", 5, 0⟩ else none⟩ :
        ServiceState).active_connections "f1" = some ⟨"siemens", 5, 0⟩) ∧
    (connectToFactoryPlcs
        ⟨fun x => if x = "f1" then some 5 else none, fun _ => none,
         fun x => if x = "f1" then some ⟨"siemens", 5, 0⟩ else none⟩
        "f1" (some ⟨some "siemens_s7_1200", some "10.0.0.1", none⟩)
        10 true 7).1.active_connections "f1" = some ⟨"siemens", 10, 7⟩ ∧
    some (ActiveConn.mk "siemens" 10 7) ≠ some (ActiveConn.mk "siemens" 5 0) := by
  refine ⟨by decide, by decide, by decide⟩

/-- Witness for c1_reconnect_replaces_connection at a concrete
already-connected registry and a succeeding reconnect. -/
theorem c1_reconnect_replaces_connection_witness :
    ((⟨fun x => if x = "f1" then some 5 else none, fun _ => none,
       fun x => if x = "f1" then some ⟨"siemens", 5, 0⟩ else none⟩ :
        ServiceState).active_connections "f1" = some ⟨"siemens", 5, 0⟩) ∧
    ((true = true →
      (connectToFactoryPlcs
          ⟨fun x => if x = "f1" then some 5 else none, fun _ => none,
           fun x => if x = "f1" then some ⟨"siemens", 5, 0⟩ else none⟩
          "f1" (some ⟨some "siemens_s7_1200", some "10.0.0.1", none⟩)
          10 true 7).1.active_connections "f1" =
        some ⟨(if strStartsWith ((some "siemens_s7_1200" : Option String).getD "")
            "siemens" then "siemens" else "schneider"), 10, 7⟩ ∧
      (connectToFactoryPlcs
          ⟨fun x => if x = "f1" then some 5 else none, fun _ => none,
           fun x => if x = "f1" then some ⟨"siemens", 5, 0⟩ else none⟩
          "f1" (some ⟨some "siemens_s7_1200", some "10.0.0.1", none⟩)
          10 true 7).2 = [("f1", true)] ∧
      (10 ≠ (ActiveConn.mk "siemens" 5 0).clientId →
        (connectToFactoryPlcs
            ⟨fun x => if x = "f1" then some 5 else none, fun _ => none,
             fun x => if x = "f1" then some ⟨"siemens", 5, 0⟩ else none⟩
            "f1" (some ⟨some "siemens_s7_1200", some "10.0.0.1", none⟩)
            10 true 7).1.active_connections "f1" ≠
          some ⟨"siemens", 5, 0⟩)) ∧
     (true = false →
      (connectToFactoryPlcs
          ⟨fun x => if x = "f1" then some 5 else none, fun _ => none,
           fun x => if x = "f1" then some ⟨"siemens", 5, 0⟩ else none⟩
          "f1" (some ⟨some "siemens_s7_1200", some "10.0.0.1", none⟩)
          10 true 7).1 =
        ⟨fun x => if x = "f1" then some 5 else none, fun _ => none,
         fun x => if x = "f1" then some ⟨"siemens", 5, 0⟩ else none⟩ ∧
      (connectToFactoryPlcs
          ⟨fun x => if x = "f1" then some 5 else none, fun _ => none,
           fun x => if x = "f1" then some ⟨"siemens", 5, 0⟩ else none⟩
          "f1" (some ⟨some "siemens_s7_1200", some "10.0.0.1", none⟩)
          10 true 7).2 = [("f1", false)])) := by
  refine ⟨by decide, ?_⟩
  exact c1_reconnect_replaces_connection
    ⟨fun x => if x = "f1" then some 5 else none, fun _ => none,
     fun x => if x = "f1" then some ⟨"siemens", 5, 0⟩ else none⟩
    "f1" ⟨some "siemens_s7_1200", some "10.0.0.1", none⟩ ⟨"siemens", 5, 0⟩
    10 true 7 (by decide) (by decide) (by decide) (Or.inl (by decide))

/-- The severity map can only produce values 1..4. -/
lemma severityMap_le (s : String) (v : Nat) (h : severityMap s = some v) : v ≤ 4 := by
  unfold severityMap at h
  split_ifs at h <;> simp_all <;> omega

/-- Behaviour of write_single_register on a connected client with
in-range fields: transaction id bumped, request bytes as packed, result
parsed from the response. -/
lemma writeSingleRegister_ok (st : ModbusState) (address value : Nat) (resp : List Nat)
    (hc : st.connected = true) (ht : st.transactionId + 1 < 65536) (hu : st.unitId < 256)
    (ha : address < 65536) (hv : value < 65536) :
    writeSingleRegister st address value (.ok resp) =
      ({ st with transactionId := st.transactionId + 1 },
        some (pack16 (st.transactionId + 1) ++ pack16 0 ++ pack16 6 ++
          [st.unitId, 6] ++ pack16 address ++ pack16 value),
        parseModbusWriteResponse resp) := by
  simp [writeSingleRegister, hc, buildModbusRequest, ht, hu, ha, hv]

/-- Request and state of write_single_register for any exchange outcome. -/
lemma writeSingleRegister_sent (st : ModbusState) (address value : Nat) (net : NetResult)
    (hc : st.connected = true) (ht : st.transactionId + 1 < 65536) (hu : st.unitId < 256)
    (ha : address < 65536) (hv : value < 65536) :
    (writeSingleRegister st address value net).2.1 =
      some (pack16 (st.transactionId + 1) ++ pack16 0 ++ pack16 6 ++
        [st.unitId, 6] ++ pack16 address ++ pack16 value) ∧
    (writeSingleRegister st address value net).1 =
      { st with transactionId := st.transactionId + 1 } := by
  cases net <;> simp [writeSingleRegister, hc, buildModbusRequest, ht, hu, ha, hv]

/-- Claim C6: write_alert maps severity low/medium/high/critical to
1..4; the Siemens path writes the two big-endian 16-bit words
[active = 1, severity] to data block 100 at offset 0, and the Schneider
path puts two function-06 requests on the wire, writing value 1 to
holding register 1000 and the severity value to holding register
1001. -/
theorem c6_alert_severity_encoding (s : String) (v : Nat) (hs : severityMap s = some v)
    (stS : S7State) (netS : NetResult) (stM : ModbusState) (net2 : NetResult)
    (resp1 : List Nat) (hc : stM.connected = true)
    (ht : stM.transactionId + 2 < 65536) (hu : stM.unitId < 256)
    (hok1 : parseModbusWriteResponse resp1 = true) :
    writeSiemensAlert stS ⟨some s⟩ netS =
      s7WriteDb stS 100 0 (pack16 1 ++ pack16 v) netS ∧
    (writeSchneiderAlert stM ⟨some s⟩ (.ok resp1) net2).2.2 =
      [pack16 (stM.transactionId + 1) ++ pack16 0 ++ pack16 6 ++ [stM.unitId, 6] ++
        pack16 1000 ++ pack16 1,
       pack16 (stM.transactionId + 2) ++ pack16 0 ++ pack16 6 ++ [stM.unitId, 6] ++
        pack16 1001 ++ pack16 v] := by
  have hv4 : v ≤ 4 := severityMap_le s v hs
  have hsev : severityValue ⟨some s⟩ = v := by simp [severityValue, hs]
  constructor
  · unfold writeSiemensAlert
    rw [hsev]
  · unfold writeSchneiderAlert
    rw [hsev]
    rw [writeSingleRegister_ok stM 1000 1 resp1 hc (by omega) hu (by omega) (by omega)]
    simp only [hok1]
    obtain ⟨h2s, h2st⟩ := writeSingleRegister_sent
      { stM with transactionId := stM.transactionId + 1 } 1001 v net2 hc
      (by simp; omega) hu (by omega) (by omega)
    simp only [h2s]
    simp

/-- Witness for c6_alert_severity_encoding at severity critical. -/
theorem c6_alert_severity_encoding_witness :
    severityMap "critical" = some 4 ∧
    parseModbusWriteResponse [0, 0, 0, 0, 0, 0, 0, 6] = true ∧
    (writeSiemensAlert ⟨true, true⟩ ⟨some "critical"⟩ .err =
      s7WriteDb ⟨true, true⟩ 100 0 (pack16 1 ++ pack16 4) .err ∧
    (writeSchneiderAlert ⟨true, true, 0, 1⟩ ⟨some "critical"⟩
        (.ok [0, 0, 0, 0, 0, 0, 0, 6]) (.ok [])).2.2 =
      [pack16 1 ++ pack16 0 ++ pack16 6 ++ [1, 6] ++ pack16 1000 ++ pack16 1,
       pack16 2 ++ pack16 0 ++ pack16 6 ++ [1, 6] ++ pack16 1001 ++ pack16 4]) := by
  refine ⟨by decide, by decide, ?_⟩
  exact c6_alert_severity_encoding "critical" 4 (by decide) ⟨true, true⟩ .err
    ⟨true, true, 0, 1⟩ (.ok []) [0, 0, 0, 0, 0, 0, 0, 6] rfl (by decide) (by decide)
    (by decide)

/-- Claim C10: a missing severity key and an unrecognized severity
string both fall back to severity value 1 — the wire encoding of
severity low — on both vendor paths; the alert is written, not
rejected. -/
theorem c10_unknown_severity_encoded_as_low (s : String)
    (hs : severityMap s = none) :
    severityValue ⟨some s⟩ = 1 ∧
    severityValue ⟨none⟩ = 1 ∧
    severityValue ⟨some "low"⟩ = 1 ∧
    (∀ (stS : S7State) (netS : NetResult),
      writeSiemensAlert stS ⟨some s⟩ netS = writeSiemensAlert stS ⟨some "low"⟩ netS ∧
      writeSiemensAlert stS ⟨none⟩ netS = writeSiemensAlert stS ⟨some "low"⟩ netS) ∧
    (∀ (stM : ModbusState) (net1 net2 : NetResult),
      writeSchneiderAlert stM ⟨some s⟩ net1 net2 =
        writeSchneiderAlert stM ⟨some "low"⟩ net1 net2 ∧
      writeSchneiderAlert stM ⟨none⟩ net1 net2 =
        writeSchneiderAlert stM ⟨some "low"⟩ net1 net2) := by
  have h1 : severityValue ⟨some s⟩ = 1 := by simp [severityValue, hs]
  have h2 : severityValue ⟨none⟩ = 1 := by simp [severityValue, severityMap]
  have h3 : severityValue ⟨some "low"⟩ = 1 := by simp [severityValue, severityMap]
  refine ⟨h1, h2, h3, fun stS netS => ⟨?_, ?_⟩, fun stM net1 net2 => ⟨?_, ?_⟩⟩ <;>
    simp only [writeSiemensAlert, writeSchneiderAlert, h1, h2, h3]

/-- Witness for c10_unknown_severity_encoded_as_low at the unrecognized
severity string urgent. -/
theorem c10_unknown_severity_encoded_as_low_witness :
    severityMap "urgent" = none ∧
    (severityValue ⟨some "urgent"⟩ = 1 ∧
     severityValue ⟨none⟩ = 1 ∧
     severityValue ⟨some "low"⟩ = 1 ∧
     (∀ (stS : S7State) (netS : NetResult),
       writeSiemensAlert stS ⟨some "urgent"⟩ netS =
         writeSiemensAlert stS ⟨some "low"⟩ netS ∧
       writeSiemensAlert stS ⟨none⟩ netS = writeSiemensAlert stS ⟨some "low"⟩ netS) ∧
     (∀ (stM : ModbusState) (net1 net2 : NetResult),
       writeSchneiderAlert stM ⟨some "urgent"⟩ net1 net2 =
         writeSchneiderAlert stM ⟨some "low"⟩ net1 net2 ∧
       writeSchneiderAlert stM ⟨none⟩ net1 net2 =
         writeSchneiderAlert stM ⟨some "low"⟩ net1 net2)) := by
  exact ⟨by decide, c10_unknown_severity_encoded_as_low "urgent" (by decide)⟩

/-- Reading two bytes out of a drop decomposition. -/
lemma getD_of_drop (l : List Nat) (start b0 b1 : Nat) (t : List Nat)
    (h : l.drop start = b0 :: b1 :: t) :
    l.getD start 0 = b0 ∧ l.getD (start + 1) 0 = b1 := by
  have h0 := List.getElem?_drop l start 0
  have h1 := List.getElem?_drop l start 1
  rw [h] at h0 h1
  simp only [List.getElem?_cons_zero, List.getElem?_cons_succ] at h0 h1
  constructor
  · rw [List.getD_eq_getElem?_getD]
    rw [show start = start + 0 from rfl] at h0 ⊢
    rw [← h0]
    rfl
  · rw [List.getD_eq_getElem?_getD, ← h1]
    rfl

/-- The register loop succeeds exactly on the words it asked for when
the response holds enough bytes. -/
lemma unpackWords_ok (response : List Nat) :
    ∀ (n start : Nat), start + 2 * n ≤ response.length →
    ∃ ws, unpackWords response start n = .ok ws ∧ ws.length = n ∧
      ∀ i, i < n → ws.getD i 0 =
        response.getD (start + 2 * i) 0 * 256 + response.getD (start + 2 * i + 1) 0 := by
  intro n
  induction n with
  | zero =>
    intro start h
    exact ⟨[], rfl, rfl, by omega⟩
  | succ m ih =>
    intro start h
    have hlen : 2 ≤ (response.drop start).length := by
      rw [List.length_drop]; omega
    rcases hdrop : response.drop start with _ | ⟨b0, _ | ⟨b1, t⟩⟩
    · rw [hdrop] at hlen; simp at hlen
    · rw [hdrop] at hlen; simp at hlen
    · obtain ⟨ws, hws, hl, hg⟩ := ih (start + 2) (by omega)
      obtain ⟨e0, e1⟩ := getD_of_drop response start b0 b1 t hdrop
      refine ⟨(b0 * 256 + b1) :: ws, ?_, by simp [hl], ?_⟩
      · simp [unpackWords, hdrop, hws]
      · intro i hi
        cases i with
        | zero =>
          simp only [List.getD_cons_zero, Nat.mul_zero, Nat.add_zero]
          rw [e0, e1]
        | succ j =>
          simp only [List.getD_cons_succ]
          have h2 := hg j (by omega)
          have e : start + 2 * (j + 1) = start + 2 + 2 * j := by omega
          rw [e]
          exact h2

/-- The register loop raises when the response is too short for the
declared word count. -/
lemma unpackWords_error (response : List Nat) :
    ∀ (n start : Nat), response.length < start + 2 * n → n ≠ 0 →
    unpackWords response start n = .error () := by
  intro n
  induction n with
  | zero => intro start h h0; omega
  | succ m ih =>
    intro start h h0
    rcases hdrop : response.drop start with _ | ⟨b0, _ | ⟨b1, t⟩⟩
    · simp [unpackWords, hdrop]
    · simp [unpackWords, hdrop]
    · have hlen : (response.drop start).length = response.length - start := by
        rw [List.length_drop]
      rw [hdrop] at hlen
      simp only [List.length_cons] at hlen
      rcases Nat.eq_zero_or_pos m with rfl | hm
    
      · omega
      · rw [show unpackWords response start (m + 1) =
            match unpackWords response (start + 2) m with
            | .ok ws => .ok ((b0 * 256 + b1) :: ws)
            | .error e => .error e by simp [unpackWords, hdrop]]
        rw [ih (start + 2) (by omega) (by omega)]

/-- Claim C7: on a read_holding_registers exchange the client returns
exactly what the parser accepts, and never an exception (socket and
struct errors are caught into None); a response shorter than the 9-byte
minimal header yields no data; a response whose function-code byte has
the 0x80 bit set is rejected; an accepted response is decoded as
byte_count / 2 big-endian 16-bit words taken from the payload at offset
9; and a response shorter than its declared byte count yields no data
at the client level rather than an exception. -/
theorem c7_modbus_read_register_decoding (st : ModbusState) (address count : Nat)
    (resp : List Nat) (hc : st.connected = true) (ht : st.transactionId + 1 < 65536)
    (hu : st.unitId < 256) (ha : address < 65536) (hcnt : count < 65536) :
    ((readHoldingRegisters st address count (.ok resp)).2.2 =
      match parseReadRegistersResponse resp with
      | .ok v => v
      | .error _ => none) ∧
    (resp.length < 9 → parseReadRegistersResponse resp = .ok none) ∧
    (9 ≤ resp.length → (resp.getD 7 0) &&& 0x80 ≠ 0 →
      parseReadRegistersResponse resp = .ok none) ∧
    (9 ≤ resp.length → (resp.getD 7 0) &&& 0x80 = 0 →
      9 + 2 * (resp.getD 8 0 / 2) ≤ resp.length →
      ∃ ws, parseReadRegistersResponse resp = .ok (some ws) ∧
        ws.length = resp.getD 8 0 / 2 ∧
        ∀ i, i < resp.getD 8 0 / 2 →
          ws.getD i 0 = resp.getD (9 + 2 * i) 0 * 256 + resp.getD (9 + 2 * i + 1) 0) ∧
    (9 ≤ resp.length → (resp.getD 7 0) &&& 0x80 = 0 →
      resp.length < 9 + 2 * (resp.getD 8 0 / 2) →
      (readHoldingRegisters st address count (.ok resp)).2.2 = none) := by
  have hread : (readHoldingRegisters st address count (.ok resp)).2.2 =
      match parseReadRegistersResponse resp with
      | .ok v => v
      | .error _ => none := by
    cases hp : parseReadRegistersResponse resp <;>
      simp [readHoldingRegisters, hc, buildModbusRequest, ht, hu, ha, hcnt, hp]
  refine ⟨hread, ?_, ?_, ?_, ?_⟩
  · intro h; simp [parseReadRegistersResponse, h]
  · intro h1 h2
    simp only [parseReadRegistersResponse]
    rw [if_neg (by omega), if_pos h2]
  · intro h1 h2 h3
    obtain ⟨ws, hws, hl, hg⟩ := unpackWords_ok resp (resp.getD 8 0 / 2) 9 (by omega)
    refine ⟨ws, ?_, hl, hg⟩
    simp only [parseReadRegistersResponse]
    rw [if_neg (by omega), if_neg (by simp only [ne_eq, not_not]; exact h2), hws]
  · intro h1 h2 h3
    have hn0 : resp.getD 8 0 / 2 ≠ 0 := by omega
    have herr := unpackWords_error resp (resp.getD 8 0 / 2) 9 (by omega) hn0
    rw [hread]
    simp only [parseReadRegistersResponse]
    rw [if_neg (by omega), if_neg (by simp only [ne_eq, not_not]; exact h2), herr]

/-- Witness for c7_modbus_read_register_decoding at a concrete
well-formed function-03 response declaring two registers. -/
theorem c7_modbus_read_register_decoding_witness :
    (ModbusState.mk true true 0 1).connected = true ∧
    ((readHoldingRegisters ⟨true, true, 0, 1⟩ 0 2
        (.ok [0, 1, 0, 0, 0, 7, 1, 3, 4, 0, 10, 0, 20])).2.2 =
      match parseReadRegistersResponse [0, 1, 0, 0, 0, 7, 1, 3, 4, 0, 10, 0, 20] with
      | .ok v => v
      | .error _ => none) ∧
    (readHoldingRegisters ⟨true, true, 0, 1⟩ 0 2
        (.ok [0, 1, 0, 0, 0, 7, 1, 3, 4, 0, 10, 0, 20])).2.2 = some [10, 20] := by
  refine ⟨rfl, ?_, by decide⟩
  exact (c7_modbus_read_register_decoding ⟨true, true, 0, 1⟩ 0 2
    [0, 1, 0, 0, 0, 7, 1, 3, 4, 0, 10, 0, 20] rfl (by decide) (by decide) (by decide)
    (by decide)).1

/-- A request beginning with a packed in-range transaction id carries
that id in its first two bytes. -/
lemma reqTid_pack16 (t : Nat) (l : List Nat) (h : t < 65536) :
    reqTid (pack16 t ++ l) = t := by
  simp only [reqTid, pack16, List.cons_append, List.getD_cons_zero, List.getD_cons_succ]
  omega

/-- A successfully built single-field Modbus request carries the
transaction id it was built with. -/
lemma buildModbusRequest_tid (tid u fc a d : Nat) (req : List Nat)
    (h : buildModbusRequest tid u fc a d = some req) :
    tid < 65536 ∧ reqTid req = tid := by
  unfold buildModbusRequest at h
  split_ifs at h with hc
  cases h
  refine ⟨hc.1, ?_⟩
  simp only [List.append_assoc]
  exact reqTid_pack16 _ _ hc.1

/-- A successfully built write-multiple Modbus request carries the
transaction id it was built with. -/
lemma buildModbusWriteMultipleRequest_tid (tid u a : Nat) (vs : List Nat)
    (req : List Nat) (h : buildModbusWriteMultipleRequest tid u a vs = some req) :
    tid < 65536 ∧ reqTid req = tid := by
  unfold buildModbusWriteMultipleRequest at h
  split_ifs at h with hc
  cases h
  refine ⟨hc.1, ?_⟩
  simp only [List.append_assoc]
  exact reqTid_pack16 _ _ hc.1

/-- No Modbus operation changes the connected flag of the client. -/
lemma mstep_connected (st : ModbusState) (op : MOp) (net : NetResult) :
    (mstep st op net).1.connected = st.connected := by
  cases op <;>
    simp only [mstep, readHoldingRegisters, writeSingleRegister,
      writeMultipleRegisters] <;>
    split <;> first
      | rfl
      | (split <;> first | rfl | (split <;> first | rfl | (split <;> rfl)))

/-- On a connected client every Modbus operation increments the
transaction id by exactly one. -/
lemma mstep_tid (st : ModbusState) (op : MOp) (net : NetResult)
    (h : st.connected = true) :
    (mstep st op net).1.transactionId = st.transactionId + 1 := by
  cases op <;>
    simp only [mstep, readHoldingRegisters, writeSingleRegister,
      writeMultipleRegisters, h] <;>
    split <;> first
      | (split <;> first | rfl | (split <;> first | rfl | (split <;> rfl)))
      | simp_all

/-- A request put on the wire carries the incremented transaction id. -/
lemma mstep_sent (st : ModbusState) (op : MOp) (net : NetResult) (req : List Nat)
    (h : (mstep st op net).2 = some req) :
    reqTid req = st.transactionId + 1 := by
  cases hcb : st.connected with
  | false =>
    exfalso
    cases op <;> simp [mstep, readHoldingRegisters, writeSingleRegister,
      writeMultipleRegisters, hcb] at h
  | true =>
    cases op with
    | readH a c =>
      simp only [mstep] at h
      cases hb : buildModbusRequest (st.transactionId + 1) st.unitId 0x03 a c with
      | none => cases net <;> simp [readHoldingRegisters, hcb, hb] at h
      | some r =>
        have hr : r = req := by
          cases net with
          | err => simp [readHoldingRegisters, hcb, hb] at h; exact h
          | ok resp =>
            cases hp : parseReadRegistersResponse resp <;>
              simp [readHoldingRegisters, hcb, hb, hp] at h <;> exact h
        rw [← hr]
        exact (buildModbusRequest_tid _ _ _ _ _ _ hb).2
    | writeS a v =>
      simp only [mstep] at h
      cases hb : buildModbusRequest (st.transactionId + 1) st.unitId 0x06 a v with
      | none => cases net <;> simp [writeSingleRegister, hcb, hb] at h
      | some r =>
        have hr : r = req := by
          cases net <;> simp [writeSingleRegister, hcb, hb] at h <;> exact h
        rw [← hr]
        exact (buildModbusRequest_tid _ _ _ _ _ _ hb).2
    | writeM a vs =>
      simp only [mstep] at h
      cases hb : buildModbusWriteMultipleRequest (st.transactionId + 1) st.unitId a vs with
      | none => cases net <;> simp [writeMultipleRegisters, hcb, hb] at h
      | some r =>
        have hr : r = req := by
          cases net <;> simp [writeMultipleRegisters, hcb, hb] at h <;> exact h
        rw [← hr]
        exact (buildModbusWriteMultipleRequest_tid _ _ _ _ _ hb).2

/-- Strengthening the head of a strictly increasing chain. -/
lemma chain_lt_of_lt_head {a b : Nat} {l : List Nat} (hab : a < b)
    (h : List.Chain' (· < ·) (b :: l)) : List.Chain' (· < ·) (a :: l) := by
  cases l with
  | nil => simp
  | cons x xs =>
    rw [List.chain'_cons] at h ⊢
    exact ⟨lt_trans hab h.1, h.2⟩

/-- Along any operation sequence on a connected client, the transaction
ids of the requests put on the wire form a strictly increasing chain
above the initial counter. -/
lemma modbusRun_chain (ops : List (MOp × NetResult)) :
    ∀ st : ModbusState, st.connected = true →
    List.Chain' (· < ·) (st.transactionId :: (modbusRun st ops).2.map reqTid) := by
  induction ops with
  | nil => intro st h; simp [modbusRun]
  | cons p rest ih =>
    obtain ⟨op, net⟩ := p
    intro st h
    have hconn2 : (mstep st op net).1.connected = true := by
      rw [mstep_connected]; exact h
    have htid : (mstep st op net).1.transactionId = st.transactionId + 1 :=
      mstep_tid st op net h
    have hrest := ih (mstep st op net).1 hconn2
    rw [htid] at hrest
    have hrun : (modbusRun st ((op, net) :: rest)).2 =
        (mstep st op net).2.toList ++ (modbusRun (mstep st op net).1 rest).2 := by
      simp [modbusRun]
    rw [hrun]
    cases hs : (mstep st op net).2 with
    | none =>
      simp only [Option.toList, List.nil_append]
      exact chain_lt_of_lt_head (Nat.lt_succ_self _) hrest
    | some req =>
      have hreq := mstep_sent st op net req hs
      simp only [Option.toList, List.singleton_append, List.map_cons]
      rw [List.chain'_cons]
      constructor
      · rw [hreq]; omega
      · rw [hreq]; exact hrest

/-- Claim C9: on a connected Modbus client every operation
(read_holding_registers, write_single_register,
write_multiple_registers) increments the transaction id by exactly one
before the request, and across any sequence of operations the
transaction ids of the requests put on the wire are strictly
monotonically increasing. -/
theorem c9_transaction_ids_strictly_increase (st : ModbusState)
    (ops : List (MOp × NetResult)) (h : st.connected = true) :
    (∀ (op : MOp) (net : NetResult),
      (mstep st op net).1.transactionId = st.transactionId + 1) ∧
    List.Pairwise (· < ·) ((modbusRun st ops).2.map reqTid) := by
  refine ⟨fun op net => mstep_tid st op net h, ?_⟩
  have hch := modbusRun_chain ops st h
  have hp := List.chain'_iff_pairwise.mp hch
  exact (List.pairwise_cons.mp hp).2

/-- Witness for c9_transaction_ids_strictly_increase on a concrete
three-operation run. -/
theorem c9_transaction_ids_strictly_increase_witness :
    (ModbusState.mk true true 0 1).connected = true ∧
    ((∀ (op : MOp) (net : NetResult),
        (mstep ⟨true, true, 0, 1⟩ op net).1.transactionId = 0 + 1) ∧
     List.Pairwise (· < ·)
       ((modbusRun ⟨true, true, 0, 1⟩
          [(MOp.readH 0 1, .err), (MOp.writeS 2 3, .ok [0, 0, 0, 0, 0, 0, 0, 6]),
           (MOp.writeM 4 [7, 8], .err)]).2.map reqTid)) :=
  ⟨rfl, c9_transaction_ids_strictly_increase ⟨true, true, 0, 1⟩
    [(MOp.readH 0 1, .err), (MOp.writeS 2 3, .ok [0, 0, 0, 0, 0, 0, 0, 6]),
     (MOp.writeM 4 [7, 8], .err)] rfl⟩

/-- Every key of a successful Siemens batch read comes from the sensor
configuration. -/
lemma readSiemensSensorData_keys (st : S7State) (net : String → NetResult) :
    ∀ (cfg : List (String × SensorCfg)) (l : List (String × SensorValue × String)),
    readSiemensSensorData st cfg net = .ok l →
    ∀ x ∈ l, x.1 ∈ cfg.map Prod.fst := by
  intro cfg
  induction cfg with
  | nil =>
    intro l h x hx
    simp only [readSiemensSensorData] at h
    cases h
    simp at hx
  | cons p rest ih =>
    intro l h x hx
    obtain ⟨name, c⟩ := p
    simp only [readSiemensSensorData] at h
    cases hs : siemensReadSensor st c (net name) with
    | error e => rw [hs] at h; cases h
    | ok o =>
      rw [hs] at h
      cases o with
      | none =>
        exact List.mem_cons_of_mem _ (ih l h x hx)
      | some v =>
        cases hr : readSiemensSensorData st rest net with
        | error e => rw [hr] at h; cases h
        | ok tl =>
          rw [hr] at h
          cases h
          rcases List.mem_cons.mp hx with rfl | hx2
          · simp
          · exact List.mem_cons_of_mem _ (ih tl hr x hx2)

/-- A sensor whose individual read yields no data is skipped and the
batch continues with the remaining sensors. -/
lemma readSiemensSensorData_skip (st : S7State) (name : String) (c : SensorCfg)
    (rest : List (String × SensorCfg)) (net : String → NetResult)
    (hskip : siemensReadSensor st c (net name) = .ok none) :
    readSiemensSensorData st ((name, c) :: rest) net =
      readSiemensSensorData st rest net := by
  simp [readSiemensSensorData, hskip]

/-- When every sensor yields no data, the batch dict stays empty. -/
lemma readSiemensSensorData_allSkip (st : S7State) (net : String → NetResult) :
    ∀ cfg : List (String × SensorCfg),
    (∀ p ∈ cfg, siemensReadSensor st p.2 (net p.1) = .ok none) →
    readSiemensSensorData st cfg net = .ok [] := by
  intro cfg
  induction cfg with
  | nil => intro _; rfl
  | cons p rest ih =>
    intro hall
    obtain ⟨name, c⟩ := p
    have h1 : siemensReadSensor st c (net name) = .ok none := hall (name, c) (by simp)
    rw [readSiemensSensorData_skip st name c rest net h1]
    exact ih fun q hq => hall q (List.mem_cons_of_mem _ hq)

/-- Claim C2 (amended): the facade read never raises — it always
returns an optional dict; an individual read that yields no data
(transport error or timeout, rejected, short or empty response) removes
only that sensor_type and the batch continues; when every sensor yields
no data the call returns None; and any returned dict is non-empty with
every key taken from the configuration, each mapped to a decoded value.
(A read that yields a payload of the wrong size for the data type
instead raises inside struct.unpack and the facade catch turns the
whole batch into None — see the counterexample.) -/
theorem c2_read_sensors_partial_failure (st : S7State) (name : String)
    (c : SensorCfg) (rest : List (String × SensorCfg)) (net : String → NetResult)
    (hskip : siemensReadSensor st c (net name) = .ok none) :
    readSensorDataFromPlc (some (.siemens st)) ((name, c) :: rest) net =
      readSensorDataFromPlc (some (.siemens st)) rest net ∧
    (∀ cfg, (∀ p ∈ cfg, siemensReadSensor st p.2 (net p.1) = .ok none) →
      readSensorDataFromPlc (some (.siemens st)) cfg net = none) ∧
    (∀ cfg l, readSensorDataFromPlc (some (.siemens st)) cfg net = some l →
      l ≠ [] ∧ ∀ x ∈ l, x.1 ∈ cfg.map Prod.fst) := by
  refine ⟨?_, ?_, ?_⟩
  · simp only [readSensorDataFromPlc]
    rw [readSiemensSensorData_skip st name c rest net hskip]
  · intro cfg hall
    simp only [readSensorDataFromPlc]
    rw [readSiemensSensorData_allSkip st net cfg hall]
    rfl
  · intro cfg l hl
    simp only [readSensorDataFromPlc] at hl
    cases hr : readSiemensSensorData st cfg net with
    | error e => rw [hr] at hl; cases hl
    | ok l2 =>
      rw [hr] at hl
      by_cases he : l2.isEmpty
      · simp [he] at hl
      · simp [he] at hl
        subst hl
        refine ⟨fun hnil => he (by simp [hnil]), ?_⟩
        intro x hx
        exact readSiemensSensorData_keys st net cfg l2 hr x hx

/-- Claim C2, counterexample to the claim as stated: sensor temp reads
a well-formed 4-byte REAL and sensor vib receives an accepted response
whose payload is only 2 bytes; struct.unpack raises on it, the facade
catch discards the whole batch and returns None — although temp alone
decodes successfully — instead of returning the partial result with
exactly temp. -/
theorem c2_counterexample_batch_aborts_on_bad_payload :
    readSensorDataFromPlc (some (.siemens ⟨true, true⟩))
      [("temp", ⟨some 1, some 0, none, none, none⟩),
       ("vib", ⟨some 1, some 4, none, none, none⟩)]
      (fun s => if s = "temp"
        then .ok (List.replicate 21 0 ++ [255, 0, 0, 4] ++ [65, 200, 0, 0])
        else .ok (List.replicate 21 0 ++ [255, 0, 0, 2] ++ [1, 2])) = none ∧
    readSensorDataFromPlc (some (.siemens ⟨true, true⟩))
      [("temp", ⟨some 1, some 0, none, none, none⟩)]
      (fun s => if s = "temp"
        then .ok (List.replicate 21 0 ++ [255, 0, 0, 4] ++ [65, 200, 0, 0])
        else .ok (List.replicate 21 0 ++ [255, 0, 0, 2] ++ [1, 2])) =
      some [("temp", .real32 1103626240, "")] := by
  constructor <;> decide

/-- Witness for c2_read_sensors_partial_failure with a sensor entry
missing its addressing keys, which the mapper skips. -/
theorem c2_read_sensors_partial_failure_witness :
    siemensReadSensor ⟨true, true⟩ ⟨none, none, none, none, none⟩
      ((fun _ => NetResult.err) "x") = .ok none ∧
    (readSensorDataFromPlc (some (.siemens ⟨true, true⟩))
        [("x", ⟨none, none, none, none, none⟩)] (fun _ => NetResult.err) =
      readSensorDataFromPlc (some (.siemens ⟨true, true⟩)) [] (fun _ => NetResult.err) ∧
    (∀ cfg, (∀ p ∈ cfg, siemensReadSensor ⟨true, true⟩ p.2
        ((fun _ => NetResult.err) p.1) = .ok none) →
      readSensorDataFromPlc (some (.siemens ⟨true, true⟩)) cfg
        (fun _ => NetResult.err) = none) ∧
    (∀ cfg l, readSensorDataFromPlc (some (.siemens ⟨true, true⟩)) cfg
        (fun _ => NetResult.err) = some l →
      l ≠ [] ∧ ∀ x ∈ l, x.1 ∈ cfg.map Prod.fst)) :=
  ⟨rfl, c2_read_sensors_partial_failure ⟨true, true⟩ "x"
    ⟨none, none, none, none, none⟩ [] (fun _ => NetResult.err) rfl⟩
